import Mathlib

/-!
Shallow embedding of the session-lifecycle core of `streamlit_app.py`
(HeyGen LiveAvatar stress-test harness).

Modelling conventions:
- JSON response bodies are `JVal` values; a parsed dict body is an `Obj`
  (association list).  Python `dict.get(k)` returning `None` on a missing
  key is `oget`/`jget` returning `JVal.null`.
- Python truthiness (`None`, `""` and `{}` are falsy) is `truthy`.
- A network request's remote outcome is passed in as an `Except String`
  argument (`.error e` models a raised `requests` exception or an HTTP
  error status that `raise_for_status` turns into an exception).
- Each function additionally returns the list of provider endpoints it
  hit (`List NetCall`), so that "no network call" claims are statable.
- Times (`time.time()` values) are modelled as natural numbers of
  seconds; distinct samplings of the clock are distinct parameters.
-/

namespace StressTest

/-- A JSON-like value as produced by `r.json()`. -/
inductive JVal where
  | null : JVal
  | str : String → JVal
  | obj : List (String × JVal) → JVal

/-- A parsed JSON object body (Python dict). -/
abbrev Obj := List (String × JVal)

/-- Python truthiness on JSON values: `None`, `""` and `{}` are falsy. -/
def truthy : JVal → Bool
  | .null => false
  | .str s => !(s == "")
  | .obj l => !l.isEmpty

/-- Python `d.get(k)` on a dict: the value at the first matching key, else `None`. -/
def oget (d : Obj) (k : String) : JVal :=
  match d with
  | [] => .null
  | (k', v) :: rest => if k' == k then v else oget rest k

/-- Python `.get(k)` on a `JVal` known to be used as a dict (`(x or \x7b\x7d).get(k)`). -/
def jget (v : JVal) (k : String) : JVal :=
  match v with
  | .obj d => oget d k
  | _ => .null

/-- Python `a or b` on JSON values: `a` when truthy, else `b`. -/
def pyOr (a b : JVal) : JVal :=
  if truthy a then a else b

/-- Python `a or b` on optional strings (used for the secrets fallback chain). -/
def pyOrS (a b : Option String) : Option String :=
  match a with
  | some s => if s == "" then b else some s
  | none => b

/-- The provider endpoints the script can hit. -/
inductive NetCall where
  | token
  | activate
  | keepalive
  | stop
deriving DecidableEq, Repr

/-- The fully-populated session record returned by `start_liveavatar_session`. -/
structure SessionHandle where
  session_id : JVal
  session_token : JVal
  livekit_url : JVal
  livekit_client_token : JVal
  ws_url : JVal

/--
Function `create_session_token_full`: POST `/sessions/token`, then read `session_id`
and `session_token` flat off the body; raise when either is missing/falsy.
`resp` is the outcome of `_post_xapi` (`.error` = raised exception).
The trace records that the token endpoint was hit.
-/
def create_session_token_full (resp : Except String Obj) :
    Except String (JVal × JVal) × List NetCall :=
  match resp with
  | .error e => (.error e, [NetCall.token])
  | .ok body =>
    let sid := oget body "session_id"
    let session_token := oget body "session_token"
    if !truthy sid || !truthy session_token then
      (.error "Missing session_id/session_token in response", [NetCall.token])
    else
      (.ok (sid, session_token), [NetCall.token])

/--
Function `start_liveavatar_session`: token acquisition then POST `/sessions/start`
with the session token as bearer; probe the activation body for the
LiveKit fields defensively (flat name, nested under `livekit`, camelCase
alternate); raise when url or client token is missing/falsy.
-/
def start_liveavatar_session (tokenResp startResp : Except String Obj) :
    Except String SessionHandle × List NetCall :=
  match create_session_token_full tokenResp with
  | (.error e, c) => (.error e, c)
  | (.ok (session_id, session_token), c) =>
    match startResp with
    | .error e => (.error e, c ++ [NetCall.activate])
    | .ok data =>
      let livekit_url :=
        pyOr (oget data "livekit_url")
          (pyOr (jget (pyOr (oget data "livekit") (.obj [])) "url")
            (oget data "liveKitUrl"))
      let livekit_client_token :=
        pyOr (oget data "livekit_client_token")
          (pyOr (jget (pyOr (oget data "livekit") (.obj [])) "token")
            (oget data "token"))
      let ws_url :=
        pyOr (oget data "ws_url")
          (jget (pyOr (oget data "websocket") (.obj [])) "url")
      if !truthy livekit_url || !truthy livekit_client_token then
        (.error "Missing LiveKit connection info from /sessions/start",
         c ++ [NetCall.activate])
      else
        (.ok ⟨session_id, session_token, livekit_url, livekit_client_token, ws_url⟩,
         c ++ [NetCall.activate])

/--
Function `keep_session_alive`: POST `/sessions/keep-alive` inside `try/except`;
any exception is logged (`debug`) and swallowed, and the function returns
`None` either way.  The first component is what propagates to the caller
(always `ok ()` — no typed failure outcome exists).
-/
def keep_session_alive (_session_id _session_token : JVal)
    (remote : Except String Unit) : Except String Unit × List NetCall :=
  match remote with
  | .ok _ => (.ok (), [NetCall.keepalive])
  | .error _ => (.ok (), [NetCall.keepalive])

/-- The advisory `debug` line `send_text_to_avatar` logs for non-empty text. -/
def sendAdvisoryLog : String :=
  "[avatar] send_text_to_avatar is not implemented for LiveAvatar v1. See Command Events docs."

/--
Function `send_text_to_avatar`: a compatibility placeholder.  Empty text returns
`False` immediately; otherwise it logs an advisory and returns `False`.
No network request is issued on either path.  The third component is the
list of debug-log lines emitted.
-/
def send_text_to_avatar (_session_id _session_token : JVal) (text : String) :
    Bool × List NetCall × List String :=
  if text == "" then
    (false, [], [])
  else
    (false, [],
     [sendAdvisoryLog])

/--
Function `stop_session`: returns immediately when either credential is falsy
(`None` or empty); otherwise POSTs `/sessions/stop` inside `try/except`,
swallowing any exception.  The function returns `None` on every path
(first component always `ok ()`).
-/
def stop_session (session_id session_token : JVal)
    (remote : Except String Unit) : Except String Unit × List NetCall :=
  if truthy session_id && truthy session_token then
    match remote with
    | .ok _ => (.ok (), [NetCall.stop])
    | .error _ => (.ok (), [NetCall.stop])
  else
    (.ok (), [])

/-- The `st.session_state` fields of the script that the lifecycle touches. -/
structure AppState where
  session_id : JVal
  session_token : JVal
  livekit_url : JVal
  livekit_client_token : JVal
  ws_url : JVal
  auto_started : Bool
  test_text : String
  stress_active : Bool
  next_keepalive_at : Nat
  autorefresh_on : Bool
  bgm_should_play : Bool

/-- The `ss.setdefault` initial values of the lifecycle fields. -/
def initialState : AppState :=
  { session_id := .null, session_token := .null, livekit_url := .null,
    livekit_client_token := .null, ws_url := .null, auto_started := false,
    test_text := "", stress_active := false, next_keepalive_at := 0,
    autorefresh_on := false, bgm_should_play := true }

/--
Hook `_graceful_shutdown` (registered with `atexit`): best-effort stop when a handle
is held; `try/except: pass` around the whole body, so nothing propagates.
Returns only the trace of calls issued.
-/
def graceful_shutdown (s : AppState) (remote : Except String Unit) : List NetCall :=
  if truthy s.session_id && truthy s.session_token then
    (stop_session s.session_id s.session_token remote).2
  else
    []

/-- The `DEFAULT_INSTRUCTION` fallback text. -/
def DEFAULT_INSTRUCTION : String :=
  "To speak to me, press the speak button, pause a second and then speak. Once you have spoken press the [Stop] button"

/-- The `st.warning` advisory shown when `send_text_to_avatar` reports `False`. -/
def sendTextWarning : String :=
  "send_text_to_avatar is not implemented for LiveAvatar v1.\n\nUse the browser UI (LiveKit) to speak, or extend viewer.html to send avatar.speak_text command events."

/--
The `Instruction` button handler: warns when no live session; otherwise
sends `test_text` (or the default instruction) via `send_text_to_avatar`;
on `ok = True` it would arm the stress timer, on `ok = False` it shows an
advisory warning.  Third component: the `st.warning` message shown, if any.
`now` models the `time.time()` sampled for the (never reached) arming branch.
-/
def instruction_button_handler (s : AppState) (now : Nat) :
    AppState × List NetCall × Option String :=
  if truthy s.session_id && truthy s.session_token && truthy s.livekit_url then
    let text_to_send := if !(s.test_text == "") then s.test_text else DEFAULT_INSTRUCTION
    let sendResult := send_text_to_avatar s.session_id s.session_token text_to_send
    if sendResult.1 then
      ({ s with stress_active := true, next_keepalive_at := now + 60,
                autorefresh_on := true },
       sendResult.2.1, none)
    else
      (s, sendResult.2.1, some sendTextWarning)
  else
    (s, [], some "Start a session first.")

/--
The `Stop Session` button handler: best-effort remote stop, then clear
every session field, the stress flag, the autorefresh flag and the
keep-alive deadline unconditionally.
-/
def stop_button_handler (s : AppState) (remote : Except String Unit) :
    AppState × List NetCall :=
  let stopResult := stop_session s.session_id s.session_token remote
  ({ s with session_id := .null, session_token := .null, livekit_url := .null,
            livekit_client_token := .null, ws_url := .null,
            stress_active := false, autorefresh_on := false,
            next_keepalive_at := 0 },
   stopResult.2)

/--
The auto-start block: when `auto_started` is not yet set, run the
two-phase handshake; on success copy all handle fields into session state
and set `auto_started`; on exception log and leave the state untouched.
-/
def auto_start_block (s : AppState) (tokenResp startResp : Except String Obj) :
    AppState × List NetCall :=
  if s.auto_started then
    (s, [])
  else
    match start_liveavatar_session tokenResp startResp with
    | (.ok created, calls) =>
      ({ s with session_id := created.session_id,
                session_token := created.session_token,
                livekit_url := created.livekit_url,
                livekit_client_token := created.livekit_client_token,
                ws_url := created.ws_url,
                auto_started := true },
       calls)
    | (.error _, calls) => (s, calls)

/-- Scheduling outcome of the end-of-script keep-alive block. -/
inductive RefreshOutcome where
  | NotDue
  | Attempted
deriving DecidableEq, Repr

/--
The keep-alive rerun block at the end of the script: when the stress
timer is active and a live session exists and `now >= next_keepalive_at`,
issue one keep-alive request (whose failures `keep_session_alive`
swallows) and then set `next_keepalive_at` to a fresh `time.time()`
sample (`now2`) plus 60 seconds — unconditionally, whatever the remote
outcome was.  Otherwise nothing happens.
-/
def keepalive_block (s : AppState) (now now2 : Nat)
    (kaRemote : Except String Unit) :
    AppState × List NetCall × RefreshOutcome :=
  if s.stress_active && truthy s.session_id && truthy s.session_token
      && truthy s.livekit_url then
    if s.next_keepalive_at ≤ now then
      let kaResult := keep_session_alive s.session_id s.session_token kaRemote
      ({ s with next_keepalive_at := now2 + 60 }, kaResult.2, RefreshOutcome.Attempted)
    else
      (s, [], RefreshOutcome.NotDue)
  else
    (s, [], RefreshOutcome.NotDue)

/-- The external inputs consumed by one top-to-bottom run of the script. -/
structure RerunInput where
  speech_txt : Option String
  tokenResp : Except String Obj
  startResp : Except String Obj
  instruction_pressed : Bool
  instrNow : Nat
  stop_pressed : Bool
  stopRemote : Except String Unit
  kaNow : Nat
  kaNow2 : Nat
  kaRemote : Except String Unit

/--
The Speech.txt block: when a non-empty file text is present and
`test_text` is still empty, copy it into `test_text`.
-/
def speech_load (s : AppState) (sp : Option String) : AppState :=
  match sp with
  | some t => if !(t == "") && (s.test_text == "") then { s with test_text := t } else s
  | none => s

/--
The viewer/bgm bookkeeping: when the viewer is loaded (all four session
fields truthy) and background music still plays, switch it off.
-/
def bgm_update (s : AppState) : AppState :=
  if (truthy s.session_id && truthy s.session_token && truthy s.livekit_url
      && truthy s.livekit_client_token) && s.bgm_should_play then
    { s with bgm_should_play := false }
  else
    s

/--
One top-to-bottom execution of the script body (after the API-key guard):
Speech.txt load, auto-start block, viewer/bgm bookkeeping, the two button
handlers in source order, then the keep-alive block.
-/
def rerun (s : AppState) (i : RerunInput) : AppState × List NetCall :=
  let step1 := auto_start_block (speech_load s i.speech_txt) i.tokenResp i.startResp
  let s1b := bgm_update step1.1
  let step2 := if i.instruction_pressed then instruction_button_handler s1b i.instrNow
      else (s1b, [], none)
  let step3 := if i.stop_pressed then stop_button_handler step2.1 i.stopRemote
      else (step2.1, [])
  let step4 := keepalive_block step3.1 i.kaNow i.kaNow2 i.kaRemote
  (step4.1, step1.2 ++ step2.2.1 ++ step3.2 ++ step4.2.1)

/-- A whole execution of the program: a sequence of script reruns. -/
def run_reruns (s : AppState) : List RerunInput → AppState × List NetCall
  | [] => (s, [])
  | i :: rest =>
    let step := rerun s i
    let more := run_reruns step.1 rest
    (more.1, step.2 ++ more.2)

/--
Resolution of `HEYGEN_API_KEY`: first truthy of the two secrets entries
or os.getenv`, with Python `or` semantics on optional strings.
-/
def resolve_api_key (k1 k2 k3 : Option String) : Option String :=
  pyOrS (pyOrS k1 k2) k3

/--
One full run of the script including the top-of-file guard: when the
resolved API key is falsy, `st.error` + `st.stop()` halt the script
(`none`, no network call); otherwise the body runs.
-/
def script_run (apiKey : Option String) (s : AppState) (i : RerunInput) :
    Option AppState × List NetCall :=
  match apiKey with
  | none => (none, [])
  | some k =>
    if k == "" then (none, [])
    else
      let step := rerun s i
      (some step.1, step.2)

/-! ### Concrete response bodies and states used in scenarios -/

/-- Token body of the spec scenario, fields nested one level under `data`. -/
def nestedTokenBody : Obj :=
  [("data", .obj [("session_id", .str "s1"), ("session_token", .str "t1")])]

/-- Activation body of the spec scenario, fields nested one level under `data`. -/
def nestedStartBody : Obj :=
  [("data", .obj [("livekit_url", .str "wss://x"), ("livekit_client_token", .str "tok")])]

/-- Flat-shape token body with the §8 scenario values. -/
def flatTokenBody : Obj :=
  [("session_id", .str "s1"), ("session_token", .str "t1")]

/-- Flat-shape activation body with the §8 scenario values. -/
def flatStartBody : Obj :=
  [("livekit_url", .str "wss://x"), ("livekit_client_token", .str "tok")]

/-- The handle the flat §8 scenario produces. -/
def flatHandle : SessionHandle :=
  ⟨.str "s1", .str "t1", .str "wss://x", .str "tok", .null⟩

/-- A state holding a live session with the stress timer armed. -/
def liveState : AppState :=
  { initialState with
    session_id := .str "s1", session_token := .str "t1",
    livekit_url := .str "wss://x", livekit_client_token := .str "tok",
    auto_started := true, stress_active := true, autorefresh_on := true }

/-- The armed live state with a keep-alive deadline still in the future. -/
def dueSoonState : AppState :=
  { liveState with next_keepalive_at := 5 }

/-- A rerun input on which every remote call fails and both buttons are pressed. -/
def failingInput : RerunInput :=
  { speech_txt := none, tokenResp := .error "ConnectionError",
    startResp := .error "ConnectionError", instruction_pressed := true,
    instrNow := 0, stop_pressed := true, stopRemote := .error "ConnectionError",
    kaNow := 100, kaNow2 := 100, kaRemote := .error "ConnectionError" }

/-! ### Helper lemmas -/

/-- Lemma: `keep_session_alive` behaves identically on every remote outcome. -/
theorem keep_session_alive_eq (sid tok : JVal) (remote : Except String Unit) :
    keep_session_alive sid tok remote = (.ok (), [NetCall.keepalive]) := by
  cases remote <;> rfl

/-- Lemma: `send_text_to_avatar` reports `False` on every input. -/
theorem send_text_fst (sid tok : JVal) (text : String) :
    (send_text_to_avatar sid tok text).1 = false := by
  unfold send_text_to_avatar
  split <;> rfl

/-- Lemma: `send_text_to_avatar` issues no network call. -/
theorem send_text_trace (sid tok : JVal) (text : String) :
    (send_text_to_avatar sid tok text).2.1 = [] := by
  unfold send_text_to_avatar
  split <;> rfl

/-- The token call is always traced exactly once by `create_session_token_full`. -/
theorem create_trace (resp : Except String Obj) :
    (create_session_token_full resp).2 = [NetCall.token] := by
  cases resp with
  | error e => rfl
  | ok body =>
    unfold create_session_token_full
    dsimp only
    split <;> rfl

/-- A successful token stage yields truthy `session_id` and `session_token`. -/
theorem create_ok_truthy {resp : Except String Obj} {sid stok : JVal}
    (h : (create_session_token_full resp).1 = .ok (sid, stok)) :
    truthy sid = true ∧ truthy stok = true := by
  cases resp with
  | error e => simp [create_session_token_full] at h
  | ok body =>
    unfold create_session_token_full at h
    dsimp only at h
    split at h
    · simp at h
    · next hcond =>
      dsimp only at h
      simp only [Except.ok.injEq, Prod.mk.injEq] at h
      obtain ⟨h1, h2⟩ := h
      subst h1; subst h2
      simp at hcond
      simpa using hcond

/-- A successful handshake yields a handle whose four transport/identity
fields are all truthy. -/
theorem start_ok_truthy {tokenResp startResp : Except String Obj} {h : SessionHandle}
    (hok : (start_liveavatar_session tokenResp startResp).1 = .ok h) :
    truthy h.session_id = true ∧ truthy h.session_token = true ∧
    truthy h.livekit_url = true ∧ truthy h.livekit_client_token = true := by
  unfold start_liveavatar_session at hok
  split at hok
  · next e c heq => simp at hok
  · next sid stok c heq =>
    have hc : truthy sid = true ∧ truthy stok = true :=
      create_ok_truthy
        (show (create_session_token_full tokenResp).1 = .ok (sid, stok) by rw [heq])
    cases startResp with
    | error e => simp at hok
    | ok data =>
      dsimp only at hok
      split at hok
      · simp at hok
      · next hcond =>
        dsimp only at hok
        simp only [Except.ok.injEq] at hok
        subst hok
        simp at hcond
        exact ⟨hc.1, hc.2, hcond.1, hcond.2⟩

/-- The handshake hits the token endpoint, then possibly the activation
endpoint, each at most once and in that order. -/
theorem start_trace_cases (tokenResp startResp : Except String Obj) :
    (start_liveavatar_session tokenResp startResp).2 = [NetCall.token] ∨
    (start_liveavatar_session tokenResp startResp).2 =
      [NetCall.token, NetCall.activate] := by
  unfold start_liveavatar_session
  split
  · next e c heq =>
    left
    have hc := create_trace tokenResp
    rw [heq] at hc
    exact hc
  · next sid stok c heq =>
    have hc := create_trace tokenResp
    rw [heq] at hc
    dsimp only at hc
    subst hc
    cases startResp with
    | error e => right; rfl
    | ok data =>
      dsimp only
      split
      · right; rfl
      · right; rfl

/-- A failed handshake leaves the session state untouched. -/
theorem auto_start_error_state {s : AppState} {tokenResp startResp : Except String Obj}
    {e : String}
    (he : (start_liveavatar_session tokenResp startResp).1 = .error e) :
    (auto_start_block s tokenResp startResp).1 = s := by
  unfold auto_start_block
  split
  · rfl
  · split
    · next created calls heq =>
      rw [heq] at he
      simp at he
    · rfl

/-- The auto-start block never touches the stress flag. -/
theorem auto_start_stress (s : AppState) (t a : Except String Obj) :
    (auto_start_block s t a).1.stress_active = s.stress_active := by
  unfold auto_start_block
  split
  · rfl
  · split
    · rfl
    · rfl

/-- The auto-start block never issues a keep-alive request. -/
theorem auto_start_no_keepalive (s : AppState) (t a : Except String Obj) :
    NetCall.keepalive ∉ (auto_start_block s t a).2 := by
  unfold auto_start_block
  split
  · simp
  · split
    · next created calls heq =>
      have ht := start_trace_cases t a
      rw [heq] at ht
      dsimp only at ht
      rcases ht with rfl | rfl <;> simp
    · next calls heq =>
      have ht := start_trace_cases t a
      rw [heq] at ht
      dsimp only at ht
      rcases ht with rfl | rfl <;> simp

/-- Closed form of `stop_session`: returns `None`, hits the stop endpoint
exactly when both credentials are truthy. -/
theorem stop_session_eq (sid tok : JVal) (remote : Except String Unit) :
    stop_session sid tok remote =
      (.ok (), if truthy sid && truthy tok then [NetCall.stop] else []) := by
  unfold stop_session
  by_cases hc : (truthy sid && truthy tok) = true
  · rw [if_pos hc, if_pos hc]
    cases remote <;> rfl
  · rw [if_neg hc, if_neg hc]

/-- Closed form of `send_text_to_avatar`. -/
theorem send_text_eq (sid tok : JVal) (text : String) :
    send_text_to_avatar sid tok text =
      (false, [], if text == "" then [] else [sendAdvisoryLog]) := by
  unfold send_text_to_avatar
  split <;> rfl

/-- The Instruction handler never changes the state and never issues a
network call (its send always reports `False`). -/
theorem instruction_handler_state (s : AppState) (now : Nat) :
    (instruction_button_handler s now).1 = s ∧
    (instruction_button_handler s now).2.1 = [] := by
  unfold instruction_button_handler
  split
  · simp [send_text_eq]
  · simp

/-- The Stop handler clears the stress flag. -/
theorem stop_handler_stress (s : AppState) (remote : Except String Unit) :
    (stop_button_handler s remote).1.stress_active = false := rfl

/-- The Stop handler issues at most the stop call. -/
theorem stop_handler_no_keepalive (s : AppState) (remote : Except String Unit) :
    NetCall.keepalive ∉ (stop_button_handler s remote).2 := by
  unfold stop_button_handler
  dsimp only
  rw [stop_session_eq]
  dsimp only
  split <;> decide

/-- With the stress flag down, the keep-alive block does nothing. -/
theorem keepalive_block_inactive (s : AppState) (now now2 : Nat)
    (r : Except String Unit) (h : s.stress_active = false) :
    keepalive_block s now now2 r = (s, [], RefreshOutcome.NotDue) := by
  unfold keepalive_block
  rw [if_neg]
  simp [h]

/-- Lemma: `speech_load` only touches `test_text`. -/
theorem speech_load_stress (s : AppState) (sp : Option String) :
    (speech_load s sp).stress_active = s.stress_active := by
  cases sp with
  | none => rfl
  | some t =>
    simp only [speech_load]
    split <;> rfl

/-- Lemma: `bgm_update` only touches `bgm_should_play`. -/
theorem bgm_stress (s : AppState) :
    (bgm_update s).stress_active = s.stress_active := by
  unfold bgm_update
  split <;> rfl

/-- The instruction step of a rerun (pressed or not) is the identity on
state and issues no network call. -/
theorem step2_state (b : Bool) (s : AppState) (now : Nat) :
    (if b then instruction_button_handler s now else (s, [], none)).1 = s ∧
    (if b then instruction_button_handler s now else (s, [], none)).2.1 = [] := by
  cases b
  · simp
  · simpa using instruction_handler_state s now

/-- The stop step of a rerun keeps the stress flag down and issues no
keep-alive call. -/
theorem step3_stress (b : Bool) (s : AppState) (r : Except String Unit)
    (h : s.stress_active = false) :
    (if b then stop_button_handler s r else (s, [])).1.stress_active = false ∧
    NetCall.keepalive ∉ (if b then stop_button_handler s r else (s, [])).2 := by
  cases b
  · simpa using h
  · simpa using ⟨stop_handler_stress s r, stop_handler_no_keepalive s r⟩

/-- With the stress flag down, one rerun keeps it down and never reaches
the keep-alive request. -/
theorem rerun_stress_false (s : AppState) (i : RerunInput)
    (h : s.stress_active = false) :
    (rerun s i).1.stress_active = false ∧ NetCall.keepalive ∉ (rerun s i).2 := by
  unfold rerun
  dsimp only
  have hsB : (bgm_update (auto_start_block (speech_load s i.speech_txt)
      i.tokenResp i.startResp).1).stress_active = false := by
    rw [bgm_stress, auto_start_stress, speech_load_stress]
    exact h
  obtain ⟨h21, h22⟩ := step2_state i.instruction_pressed
    (bgm_update (auto_start_block (speech_load s i.speech_txt) i.tokenResp i.startResp).1)
    i.instrNow
  obtain ⟨h31, h32⟩ := step3_stress i.stop_pressed
    ((if i.instruction_pressed then
        instruction_button_handler
          (bgm_update (auto_start_block (speech_load s i.speech_txt) i.tokenResp i.startResp).1)
          i.instrNow
      else
        (bgm_update (auto_start_block (speech_load s i.speech_txt) i.tokenResp i.startResp).1,
         [], none)).1)
    i.stopRemote (by rw [h21]; exact hsB)
  have hka := keepalive_block_inactive _ i.kaNow i.kaNow2 i.kaRemote h31
  rw [hka]
  dsimp only
  refine ⟨h31, ?_⟩
  rw [h22]
  simp only [List.append_nil, List.nil_append, List.mem_append, not_or]
  exact ⟨auto_start_no_keepalive _ _ _, h32⟩

/-- With the stress flag down initially, a whole execution keeps it down
and its network trace never contains a keep-alive request. -/
theorem run_reruns_no_keepalive (s : AppState) (inputs : List RerunInput)
    (h : s.stress_active = false) :
    (run_reruns s inputs).1.stress_active = false ∧
    NetCall.keepalive ∉ (run_reruns s inputs).2 := by
  induction inputs generalizing s with
  | nil => exact ⟨h, by simp [run_reruns]⟩
  | cons i rest ih =>
    unfold run_reruns
    dsimp only
    obtain ⟨h1, h2⟩ := rerun_stress_false s i h
    obtain ⟨h3, h4⟩ := ih (rerun s i).1 h1
    refine ⟨h3, ?_⟩
    simp only [List.mem_append, not_or]
    exact ⟨h2, h4⟩

/-! ### Claims -/

/-- C1 (counterexample): the claim says the nested `{data: {...}}` response
shapes of the §8 scenario yield the same fully-populated handle as the flat
shapes (`session_id = "s1"`, `transport_url = "wss://x"`).  In fact the code
never probes under a `data` key: the nested token response makes `start()`
raise at the token stage, while the flat shapes succeed. -/
theorem C1_counterexample :
    (start_liveavatar_session (.ok nestedTokenBody) (.ok nestedStartBody)).1 =
      .error "Missing session_id/session_token in response" ∧
    (start_liveavatar_session (.ok flatTokenBody) (.ok flatStartBody)).1 =
      .ok flatHandle :=
  ⟨rfl, rfl⟩

/-- C1 (amended): `start()` adapts only the shapes its probes cover — flat
token fields, and at activation `livekit_url` / `livekit.url` / `liveKitUrl`
(similarly for the client token) — but never one level under a `data` key:
any token response whose only top-level key is `data` raises at the token
stage producing no handle, whereas the flat §8 responses yield the fully
populated handle with `session_id = "s1"` and `transport_url = "wss://x"`. -/
theorem C1_response_shape (inner : JVal) :
    (create_session_token_full (.ok [("data", inner)])).1 =
      .error "Missing session_id/session_token in response" ∧
    (start_liveavatar_session (.ok flatTokenBody) (.ok flatStartBody)).1 =
      .ok flatHandle :=
  ⟨rfl, rfl⟩

/-- C2 (counterexample): the claim says a failed keep-alive leaves
`next_keepalive_at` unchanged.  At a due tick of an armed live session
(`next_keepalive_at = 0`, `now = 100`) whose keep-alive request errors with
HTTP 500, the block still issues the request and moves the deadline from 0 to
160 — the failure is invisible because `keep_session_alive` swallows it. -/
theorem C2_counterexample :
    liveState.stress_active = true ∧
    liveState.next_keepalive_at = 0 ∧
    (keepalive_block liveState 100 100 (.error "HTTP 500")).2.1 = [NetCall.keepalive] ∧
    (keepalive_block liveState 100 100 (.error "HTTP 500")).1.next_keepalive_at = 160 :=
  ⟨rfl, rfl, rfl, rfl⟩

/-- C2 (amended): at every due tick the block issues exactly one keep-alive
request and then unconditionally sets `next_keepalive_at` to the freshly
sampled time plus 60 seconds, whether the refresh succeeded or failed; a
failed refresh therefore does not retry immediately but waits the full
interval. -/
theorem C2_keepalive_reschedule (s : AppState) (now now2 : Nat)
    (remote : Except String Unit)
    (hActive : s.stress_active = true) (hSid : truthy s.session_id = true)
    (hTok : truthy s.session_token = true) (hUrl : truthy s.livekit_url = true)
    (hDue : s.next_keepalive_at ≤ now) :
    (keepalive_block s now now2 remote).1.next_keepalive_at = now2 + 60 ∧
    (keepalive_block s now now2 remote).2.1 = [NetCall.keepalive] ∧
    (keepalive_block s now now2 remote).2.2 = RefreshOutcome.Attempted := by
  unfold keepalive_block
  rw [if_pos (by simp [hActive, hSid, hTok, hUrl]), if_pos hDue,
    keep_session_alive_eq]
  exact ⟨rfl, rfl, rfl⟩

/-- Witness for C2 (amended) at the armed live state, a due time and a
failing remote. -/
theorem C2_keepalive_reschedule_witness :
    (liveState.stress_active = true ∧ truthy liveState.session_id = true ∧
      truthy liveState.session_token = true ∧ truthy liveState.livekit_url = true ∧
      liveState.next_keepalive_at ≤ 100) ∧
    ((keepalive_block liveState 100 100 (.error "HTTP 500")).1.next_keepalive_at = 160 ∧
      (keepalive_block liveState 100 100 (.error "HTTP 500")).2.1 = [NetCall.keepalive] ∧
      (keepalive_block liveState 100 100 (.error "HTTP 500")).2.2 =
        RefreshOutcome.Attempted) :=
  ⟨⟨rfl, rfl, rfl, rfl, by decide⟩,
    C2_keepalive_reschedule liveState 100 100 (.error "HTTP 500")
      rfl rfl rfl rfl (by decide)⟩

/-- C3: `start()` either returns a handle whose four identifying/transport
fields are all truthy (non-empty), or propagates a typed error producing no
handle, in which case the auto-start block leaves the prior session state
unchanged (credentials from the failed attempt are local and discarded). -/
theorem C3_start_atomicity (tokenResp startResp : Except String Obj) (s : AppState) :
    (∀ h, (start_liveavatar_session tokenResp startResp).1 = .ok h →
        truthy h.session_id = true ∧ truthy h.session_token = true ∧
        truthy h.livekit_url = true ∧ truthy h.livekit_client_token = true) ∧
    (∀ e, (start_liveavatar_session tokenResp startResp).1 = .error e →
        (auto_start_block s tokenResp startResp).1 = s) :=
  ⟨fun _ hok => start_ok_truthy hok, fun _ he => auto_start_error_state he⟩

/-- Witness for C3 at the flat §8 scenario responses. -/
theorem C3_start_atomicity_witness :
    (start_liveavatar_session (.ok flatTokenBody) (.ok flatStartBody)).1 =
      .ok flatHandle ∧
    (truthy flatHandle.session_id = true ∧ truthy flatHandle.session_token = true ∧
      truthy flatHandle.livekit_url = true ∧
      truthy flatHandle.livekit_client_token = true) :=
  ⟨rfl, (C3_start_atomicity (.ok flatTokenBody) (.ok flatStartBody) initialState).1
    flatHandle rfl⟩

/-- C4: after the Stop Session handler runs, the local state reflects
"no session" — all session fields, the stress flag, the autorefresh flag
and the keep-alive deadline are cleared — for every outcome of the remote
termination request, including a raising remote call. -/
theorem C4_stop_clears_state (s : AppState) (remote : Except String Unit) :
    (stop_button_handler s remote).1.session_id = JVal.null ∧
    (stop_button_handler s remote).1.session_token = JVal.null ∧
    (stop_button_handler s remote).1.livekit_url = JVal.null ∧
    (stop_button_handler s remote).1.livekit_client_token = JVal.null ∧
    (stop_button_handler s remote).1.ws_url = JVal.null ∧
    (stop_button_handler s remote).1.stress_active = false ∧
    (stop_button_handler s remote).1.autorefresh_on = false ∧
    (stop_button_handler s remote).1.next_keepalive_at = 0 :=
  ⟨rfl, rfl, rfl, rfl, rfl, rfl, rfl, rfl⟩

/-- C5: in FULL mode, sending an instruction over REST is unsupported:
`send_text_to_avatar` returns `False` for every text with no network call
and no exception, and the Instruction handler on a live session reports it
as a boolean false accompanied by the advisory directing the caller to the
command-channel path. -/
theorem C5_send_unsupported (sid tok : JVal) (text : String) (s : AppState) (now : Nat)
    (hlive : (truthy s.session_id && truthy s.session_token &&
      truthy s.livekit_url) = true) :
    (send_text_to_avatar sid tok text).1 = false ∧
    (send_text_to_avatar sid tok text).2.1 = [] ∧
    instruction_button_handler s now = (s, [], some sendTextWarning) := by
  refine ⟨send_text_fst _ _ _, send_text_trace _ _ _, ?_⟩
  unfold instruction_button_handler
  rw [if_pos hlive]
  simp [send_text_eq]

/-- Witness for C5 at the live state and a concrete text. -/
theorem C5_send_unsupported_witness :
    (truthy liveState.session_id && truthy liveState.session_token &&
      truthy liveState.livekit_url) = true ∧
    ((send_text_to_avatar (.str "s1") (.str "t1") "Hello").1 = false ∧
      (send_text_to_avatar (.str "s1") (.str "t1") "Hello").2.1 = [] ∧
      instruction_button_handler liveState 0 = (liveState, [], some sendTextWarning)) :=
  ⟨rfl, C5_send_unsupported (.str "s1") (.str "t1") "Hello" liveState 0 rfl⟩

/-- C6 (counterexample): the claim says every provider-call failure — a
keep-alive failure included — is reported upward as a typed outcome.  In
fact `keep_session_alive` swallows the failure: on an HTTP 500 it returns
exactly what it returns on success, so the caller receives no typed
failure outcome. -/
theorem C6_counterexample :
    keep_session_alive (.str "s1") (.str "t1") (.error "HTTP 500") =
      keep_session_alive (.str "s1") (.str "t1") (.ok ()) ∧
    (keep_session_alive (.str "s1") (.str "t1") (.error "HTTP 500")).1 = .ok () :=
  ⟨rfl, rfl⟩

/-- C6 (amended): start-stage provider failures propagate to the caller as
raised errors and no provider call is retried within a single invocation
(the handshake trace is `[token]` or `[token, activate]`), but keep-alive
and stop failures are logged and swallowed inside `keep_session_alive` /
`stop_session` — the functions return `None` either way, with no typed
outcome for the caller. -/
theorem C6_propagation (sid tok : JVal) (remote : Except String Unit) (e : String)
    (tokenResp startResp : Except String Obj) :
    keep_session_alive sid tok remote = (.ok (), [NetCall.keepalive]) ∧
    (stop_session sid tok (.error e)).1 = .ok () ∧
    (create_session_token_full (.error e)).1 = .error e ∧
    (start_liveavatar_session (.ok flatTokenBody) (.error e)).1 = .error e ∧
    ((start_liveavatar_session tokenResp startResp).2 = [NetCall.token] ∨
      (start_liveavatar_session tokenResp startResp).2 =
        [NetCall.token, NetCall.activate]) := by
  refine ⟨keep_session_alive_eq sid tok remote, ?_, rfl, rfl,
    start_trace_cases tokenResp startResp⟩
  rw [stop_session_eq]

/-- C7: a tick strictly before the deadline is `NotDue`, makes no network
call and leaves the state unchanged; a second tick at the same `now` again
produces `NotDue` with no network call. -/
theorem C7_notdue_idempotent (s : AppState) (now now2 now2' : Nat)
    (r1 r2 : Except String Unit) (h : now < s.next_keepalive_at) :
    keepalive_block s now now2 r1 = (s, [], RefreshOutcome.NotDue) ∧
    keepalive_block (keepalive_block s now now2 r1).1 now now2' r2 =
      (s, [], RefreshOutcome.NotDue) := by
  have h1 : keepalive_block s now now2 r1 = (s, [], RefreshOutcome.NotDue) := by
    unfold keepalive_block
    split
    · rw [if_neg (by omega)]
    · rfl
  refine ⟨h1, ?_⟩
  rw [h1]
  dsimp only
  unfold keepalive_block
  split
  · rw [if_neg (by omega)]
  · rfl

/-- Witness for C7: deadline 5, both ticks at time 3. -/
theorem C7_notdue_idempotent_witness :
    3 < dueSoonState.next_keepalive_at ∧
    (keepalive_block dueSoonState 3 3 (.ok ()) = (dueSoonState, [], RefreshOutcome.NotDue) ∧
      keepalive_block (keepalive_block dueSoonState 3 3 (.ok ())).1 3 4 (.error "HTTP 500") =
        (dueSoonState, [], RefreshOutcome.NotDue)) :=
  ⟨by decide, C7_notdue_idempotent dueSoonState 3 3 4 (.ok ()) (.error "HTTP 500")
    (by decide)⟩

/-- C8: when the API key resolves to nothing from every configured source,
the script halts at the guard (`st.stop`) and no lifecycle request — token,
activation, keep-alive or stop — is ever attempted. -/
theorem C8_missing_api_key (k1 k2 k3 : Option String) (s : AppState) (i : RerunInput)
    (h1 : k1 = none ∨ k1 = some "") (h2 : k2 = none ∨ k2 = some "")
    (h3 : k3 = none ∨ k3 = some "") :
    script_run (resolve_api_key k1 k2 k3) s i = (none, []) := by
  rcases h1 with rfl | rfl <;> rcases h2 with rfl | rfl <;>
    rcases h3 with rfl | rfl <;> rfl

/-- Witness for C8: every source absent. -/
theorem C8_missing_api_key_witness :
    ((none : Option String) = none ∨ (none : Option String) = some "") ∧
    script_run (resolve_api_key none none none) initialState failingInput = (none, []) :=
  ⟨Or.inl rfl, C8_missing_api_key none none none initialState failingInput
    (Or.inl rfl) (Or.inl rfl) (Or.inl rfl)⟩

/-- C9: the Instruction handler never changes the session state (its send
always reports `False`), so starting from any state with the stress flag
down — as every execution of this script does — the flag stays down across
every sequence of reruns and the keep-alive request block is never
reached: no keep-alive call ever appears in the execution trace. -/
theorem C9_keepalive_unreachable (s : AppState) (inputs : List RerunInput)
    (h : s.stress_active = false) :
    (∀ s' n, (instruction_button_handler s' n).1 = s') ∧
    (run_reruns s inputs).1.stress_active = false ∧
    NetCall.keepalive ∉ (run_reruns s inputs).2 :=
  ⟨fun s' n => (instruction_handler_state s' n).1,
    (run_reruns_no_keepalive s inputs h).1,
    (run_reruns_no_keepalive s inputs h).2⟩

/-- Witness for C9: the default initial state and one failing rerun. -/
theorem C9_keepalive_unreachable_witness :
    initialState.stress_active = false ∧
    ((run_reruns initialState [failingInput]).1.stress_active = false ∧
      NetCall.keepalive ∉ (run_reruns initialState [failingInput]).2) :=
  ⟨rfl, (C9_keepalive_unreachable initialState [failingInput] rfl).2⟩

/-- C10: `stop_session` is a total no-op when either credential is falsy
(`None` or empty): it returns immediately with no network request and no
exception; the remote stop call happens exactly when both credentials are
truthy. -/
theorem C10_stop_session_guard (sid tok : JVal) (remote : Except String Unit) :
    ((truthy sid = false ∨ truthy tok = false) →
        stop_session sid tok remote = (.ok (), [])) ∧
    ((stop_session sid tok remote).2 = [NetCall.stop] ↔
        (truthy sid = true ∧ truthy tok = true)) := by
  rw [stop_session_eq]
  constructor
  · intro h
    rcases h with h | h <;> simp [h]
  · by_cases hc : (truthy sid && truthy tok) = true
    · simp only [hc, if_true]
      simpa using Bool.and_eq_true _ _ ▸ hc
    · simp only [hc, if_false]
      constructor
      · intro hfalse
        exact absurd hfalse (by simp)
      · intro hand
        exact absurd (by simp [hand.1, hand.2] : (truthy sid && truthy tok) = true) hc

/-- Witness for C10: a `None` session id. -/
theorem C10_stop_session_guard_witness :
    (truthy JVal.null = false ∨ truthy (JVal.str "t1") = false) ∧
    stop_session JVal.null (JVal.str "t1") (.error "HTTP 500") = (.ok (), []) :=
  ⟨Or.inl rfl, (C10_stop_session_guard JVal.null (JVal.str "t1") (.error "HTTP 500")).1
    (Or.inl rfl)⟩

end StressTest
